import Mathlib

/-!
Shallow embedding of the adguardexporter repository (Go).

The repository contains two revisions of the single-file exporter:
* `main.go` — the current program (its env-variable names `ADGUARD_HOST`,
  `ADGUARD_USER`, `ADGUARD_PASS`, its `/control/querylog` fetcher and its
  `adguard_replaced_parental` metric match the README and the v1.1.0
  CHANGELOG entries).  It is embedded below at top level.
* an older revision (an unnamed source file in the repository) with a
  different metric set (`adguard_scrape_errors_total`, DHCP gauges),
  nested status structs and a fatal interval parse.  It is embedded in
  namespace `V0`.

Modelling conventions:
* Go `float64` values are modelled as `ℚ` (all values involved in the
  verified properties are exactly representable, e.g. `250 / 1000 = 0.25`).
* A Prometheus `GaugeVec`/`CounterVec` family is modelled as an association
  list from label value(s) to the series value; `Reset` is `[]`,
  `WithLabelValues(k).Set v` is `setA`, `WithLabelValues(k).Inc()` is
  `incA`.  A `HistogramVec` family is the list of observations per label.
* Go `map[string]T` payload entries (iteration order unspecified, singleton
  in practice) are modelled as association lists in iteration order.
* fallible fetching/decoding is modelled with `Except` / `Option`.
-/

set_option autoImplicit false

/-- Model of one labelled metric-vector family: `WithLabelValues(k).Set(v)`.
An existing series for the key is overwritten in place, a new key is
appended. -/
def setA {α : Type} [DecidableEq α] (k : α) (v : ℚ) : List (α × ℚ) → List (α × ℚ)
  | [] => [(k, v)]
  | (a, b) :: t => if a = k then (k, v) :: t else (a, b) :: setA k v t

/-- Model of `WithLabelValues(k).Inc()` on a counter-vector family: a fresh
series starts at 0 and is incremented to 1. -/
def incA {α : Type} [DecidableEq α] (k : α) : List (α × ℚ) → List (α × ℚ)
  | [] => [(k, 1)]
  | (a, b) :: t => if a = k then (a, b + 1) :: t else (a, b) :: incA k t

/-- Value of the series for key `k` in a family (0 when the series does not
exist, matching a Prometheus counter that was never incremented). -/
def getA {α : Type} [DecidableEq α] (k : α) : List (α × ℚ) → ℚ
  | [] => 0
  | (a, b) :: t => if a = k then b else getA k t

/-- Model of `WithLabelValues(k).Observe(v)` on a histogram-vector family:
the observation is appended to the series for `k`. -/
def obsA (k : String) (v : ℚ) : List (String × List ℚ) → List (String × List ℚ)
  | [] => [(k, [v])]
  | (a, b) :: t => if a = k then (a, b ++ [v]) :: t else (a, b) :: obsA k v t

/-- Go struct `AdGuardStats` of `main.go` (decoded `/control/stats` payload).
Each `top_*` field is `[]map[string]float64`. -/
structure AdGuardStats where
  numDNSQueries : ℚ
  numBlockedFiltering : ℚ
  numReplacedParental : ℚ
  avgProcessingTime : ℚ
  topQueriedDomains : List (List (String × ℚ))
  topBlockedDomains : List (List (String × ℚ))
  topClients : List (List (String × ℚ))
  topUpstream : List (List (String × ℚ))
  topUpstreamTime : List (List (String × ℚ))
deriving DecidableEq

/-- Go struct `AdGuardStatus` of `main.go` (decoded `/control/status`
payload, flat shape). -/
structure AdGuardStatus where
  version : String
  language : String
  dnsAddresses : List String
  dnsPort : ℤ
  httpPort : ℤ
  protectionDisabledDuration : ℤ
  protectionEnabled : Bool
  dhcpAvailable : Bool
  running : Bool
deriving DecidableEq

/-- One entry of the `data` array of the `/control/querylog` payload of
`main.go` (`question.type`, `question.name`, `reason`, `client`,
`elapsedMs` kept as a string, `upstream`). -/
structure QLogEntry where
  questionType : String
  questionName : String
  reason : String
  client : String
  elapsed : String
  upstream : String
deriving DecidableEq

/-- Go struct `AdGuardQueryLog` of `main.go`. -/
structure AdGuardQueryLog where
  data : List QLogEntry
deriving DecidableEq

/-- The Prometheus registry of `main.go`: exactly the metrics passed to
`prometheus.MustRegister` in its `init` (note: it registers no
scrape-error counter). -/
structure Registry where
  dnsQueries : ℚ
  blockedFiltering : ℚ
  replacedParental : ℚ
  avgProcessingTime : ℚ
  statusProtectionEnabled : ℚ
  statusRunning : ℚ
  statusDHCPAvailable : ℚ
  statusDisabledDuration : ℚ
  versionInfo : List (String × ℚ)
  topQueriedDomains : List (String × ℚ)
  topBlockedDomains : List (String × ℚ)
  topClients : List (String × ℚ)
  topUpstreams : List (String × ℚ)
  topUpstreamTime : List (String × ℚ)
  queryCountByReason : List (String × ℚ)
  queryCountByType : List (String × ℚ)
  queryHistogramByClient : List (String × List ℚ)
  queryCountByUpstream : List (String × ℚ)
  queryCountByDomain : List (String × ℚ)
  queryCountClientReason : List ((String × String) × ℚ)
deriving DecidableEq

/-- The freshly-registered registry: gauges and counters at 0, vector
families empty. -/
def Registry.init : Registry :=
  ⟨0, 0, 0, 0, 0, 0, 0, 0, [], [], [], [], [], [], [], [], [], [], [], []⟩

/-- Go `boolToFloat` of `main.go`. -/
def boolToFloat (b : Bool) : ℚ := if b then 1 else 0

/-- The nested population loop of `updateMetrics` in `main.go`:
`for _, m := range entries { for k, val := range m { fam.WithLabelValues(k).Set(val) } }`. -/
def populate (entries : List (List (String × ℚ))) (fam : List (String × ℚ)) :
    List (String × ℚ) :=
  entries.foldl (fun f m => m.foldl (fun f kv => setA kv.1 kv.2 f) f) fam

/-- The stats branch of `updateMetrics` in `main.go` (executed only when
`fetchStats` returned no error): scalar gauges are set, then each top-N
family is `Reset()` and repopulated from the payload. -/
def applyStats (stats : AdGuardStats) (r : Registry) : Registry :=
  { r with
    dnsQueries := stats.numDNSQueries
    blockedFiltering := stats.numBlockedFiltering
    replacedParental := stats.numReplacedParental
    avgProcessingTime := stats.avgProcessingTime
    topQueriedDomains := populate stats.topQueriedDomains []
    topBlockedDomains := populate stats.topBlockedDomains []
    topClients := populate stats.topClients []
    topUpstreams := populate stats.topUpstream []
    topUpstreamTime := populate stats.topUpstreamTime [] }

/-- The status branch of `updateMetrics` in `main.go` (executed only when
`fetchStatus` returned no error). -/
def applyStatus (status : AdGuardStatus) (r : Registry) : Registry :=
  { r with
    statusProtectionEnabled := boolToFloat status.protectionEnabled
    statusRunning := boolToFloat status.running
    statusDHCPAvailable := boolToFloat status.dhcpAvailable
    statusDisabledDuration := (status.protectionDisabledDuration : ℚ)
    versionInfo := setA status.version 1 [] }

/-- Decimal digit value of a character. -/
def digitVal (c : Char) : Option Nat :=
  if c.isDigit then some (c.toNat - 48) else none

/-- Split a leading run of decimal digits off a character list. -/
def takeDigits : List Char → (List Nat × List Char)
  | [] => ([], [])
  | c :: t =>
    match digitVal c with
    | some d => ((d :: (takeDigits t).1), (takeDigits t).2)
    | none => ([], c :: t)

/-- Value of a digit list read most-significant first. -/
def digitsToNat (ds : List Nat) : Nat :=
  ds.foldl (fun a d => a * 10 + d) 0

/-- Model of Go `strconv.ParseFloat(s, 64)` for finite decimal forms:
optional sign, digits with optional fraction, optional exponent.  The
result is the exactly-parsed rational (the binary rounding of `float64`,
the hex-float forms and the `Inf`/`NaN` spellings are outside the model's
scope); strings outside this grammar fail, as in Go. -/
def parseGoFloat (s : String) : Option ℚ :=
  let sgn := match s.toList with
    | '-' :: t => (true, t)
    | '+' :: t => (false, t)
    | t => (false, t)
  let ipr := takeDigits sgn.2
  let mant : Option (ℚ × List Char) :=
    match ipr.2 with
    | '.' :: t =>
      let fpr := takeDigits t
      if ipr.1.isEmpty ∧ fpr.1.isEmpty then none
      else some ((digitsToNat ipr.1 : ℚ) +
        (digitsToNat fpr.1 : ℚ) / (10 : ℚ) ^ fpr.1.length, fpr.2)
    | rest => if ipr.1.isEmpty then none else some ((digitsToNat ipr.1 : ℚ), rest)
  match mant with
  | none => none
  | some (m, rest) =>
    let m := if sgn.1 then -m else m
    match rest with
    | [] => some m
    | e :: t =>
      if e = 'e' ∨ e = 'E' then
        let esgn := match t with
          | '-' :: u => (true, u)
          | '+' :: u => (false, u)
          | u => (false, u)
        let epr := takeDigits esgn.2
        if epr.1.isEmpty ∨ ¬ epr.2.isEmpty then none
        else
          let ex : ℤ := if esgn.1 then -(digitsToNat epr.1 : ℤ) else (digitsToNat epr.1 : ℤ)
          some (m * (10 : ℚ) ^ ex)
      else none

/-- The body of the per-entry loop of `updateQueryLogMetrics` in `main.go`:
five counter increments; the elapsed-time observation happens only when
`strconv.ParseFloat` succeeds on the entry's `elapsedMs` string. -/
def qlogStep (r : Registry) (q : QLogEntry) : Registry :=
  let r1 := { r with queryCountByReason := incA q.reason r.queryCountByReason }
  let r2 := { r1 with queryCountByType := incA q.questionType r1.queryCountByType }
  let r3 :=
    match parseGoFloat q.elapsed with
    | some elapsedMs =>
      { r2 with queryHistogramByClient := obsA q.client elapsedMs r2.queryHistogramByClient }
    | none => r2
  let r4 := { r3 with queryCountByUpstream := incA q.upstream r3.queryCountByUpstream }
  let r5 := { r4 with queryCountByDomain := incA q.questionName r4.queryCountByDomain }
  { r5 with queryCountClientReason := incA (q.client, q.reason) r5.queryCountClientReason }

/-- Fetch failure kinds of `main.go`: transport error from `client.Do`,
body read error from `io.ReadAll`, and `json.Unmarshal` failure. -/
inductive FetchErr where
  | network
  | readBody
  | decode
deriving DecidableEq

/-- Go `updateQueryLogMetrics` of `main.go`, at the level of the fetch
result: on error it logs and returns (no registry change), otherwise it
folds the per-entry loop over the page. -/
def updateQueryLogMetrics (res : Except FetchErr AdGuardQueryLog) (r : Registry) : Registry :=
  match res with
  | .error _ => r
  | .ok logData => logData.data.foldl qlogStep r

/-- The three per-cycle fetch results of `updateMetrics` in `main.go`. -/
structure CycleFetches where
  stats : Except FetchErr AdGuardStats
  status : Except FetchErr AdGuardStatus
  queryLog : Except FetchErr AdGuardQueryLog

/-- Go `updateMetrics` of `main.go`, at the level of the three fetch
results: the stats branch runs only on a successful stats fetch, the
status branch only on a successful status fetch, and the query-log update
runs unconditionally at the end. -/
def updateMetrics (f : CycleFetches) (r : Registry) : Registry :=
  let r1 := match f.stats with
    | .ok stats => applyStats stats r
    | .error _ => r
  let r2 := match f.status with
    | .ok status => applyStatus status r1
    | .error _ => r1
  updateQueryLogMetrics f.queryLog r2

/-- A sequence of collector cycles: `updateMetrics` applied poll by poll. -/
def runPolls (fs : List CycleFetches) (r : Registry) : Registry :=
  fs.foldl (fun r f => updateMetrics f r) r

/-- JSON document model (Go `encoding/json` input).  Numbers are kept as
exact rationals. -/
inductive Json where
  | null
  | bool (b : Bool)
  | num (q : ℚ)
  | str (s : String)
  | arr (elems : List Json)
  | obj (fields : List (String × Json))

/-- Skip JSON whitespace. -/
def skipWs : List Char → List Char
  | [] => []
  | c :: t => if c = ' ' ∨ c = '\n' ∨ c = '\t' ∨ c = '\r' then skipWs t else c :: t

/-- Parse the characters of a JSON string after its opening quote,
handling the single-character escapes (the `\uXXXX` escape is outside the
model's scope; the verified payloads contain none). -/
def pStrChars : List Char → Option (List Char × List Char)
  | [] => none
  | '"' :: t => some ([], t)
  | '\\' :: e :: t =>
    let esc : Option Char :=
      match e with
      | '"' => some '"'
      | '\\' => some '\\'
      | '/' => some '/'
      | 'n' => some '\n'
      | 't' => some '\t'
      | 'r' => some '\r'
      | 'b' => some (Char.ofNat 8)
      | 'f' => some (Char.ofNat 12)
      | _ => none
    match esc with
    | none => none
    | some c =>
      match pStrChars t with
      | none => none
      | some (s, r) => some (c :: s, r)
  | c :: t =>
    match pStrChars t with
    | none => none
    | some (s, r) => some (c :: s, r)

/-- Parse a JSON number into an exact rational (the JSON leading-zero
restriction is not modelled; every number of the verified payloads is a
plain integer, which both Go and this model parse identically). -/
def pNum (cs : List Char) : Option (ℚ × List Char) :=
  let sgn := match cs with
    | '-' :: t => (true, t)
    | t => (false, t)
  let ipr := takeDigits sgn.2
  if ipr.1.isEmpty then none
  else
    let mant : Option (ℚ × List Char) :=
      match ipr.2 with
      | '.' :: t =>
        let fpr := takeDigits t
        if fpr.1.isEmpty then none
        else some ((digitsToNat ipr.1 : ℚ) +
          (digitsToNat fpr.1 : ℚ) / (10 : ℚ) ^ fpr.1.length, fpr.2)
      | rest => some ((digitsToNat ipr.1 : ℚ), rest)
    match mant with
    | none => none
    | some (m, rest) =>
      let m := if sgn.1 then -m else m
      match rest with
      | 'e' :: t | 'E' :: t =>
        let esgn := match t with
          | '-' :: u => (true, u)
          | '+' :: u => (false, u)
          | u => (false, u)
        let epr := takeDigits esgn.2
        if epr.1.isEmpty then none
        else
          let ex : ℤ := if esgn.1 then -(digitsToNat epr.1 : ℤ) else (digitsToNat epr.1 : ℤ)
          some (m * (10 : ℚ) ^ ex, epr.2)
      | _ => some (m, rest)

mutual

/-- Recursive-descent JSON value parser (fuel-bounded; `parseJson` supplies
ample fuel, so exhaustion never occurs on the inputs evaluated here). -/
def pVal : Nat → List Char → Option (Json × List Char)
  | 0, _ => none
  | fuel + 1, cs =>
    match skipWs cs with
    | 'n' :: 'u' :: 'l' :: 'l' :: t => some (.null, t)
    | 't' :: 'r' :: 'u' :: 'e' :: t => some (.bool true, t)
    | 'f' :: 'a' :: 'l' :: 's' :: 'e' :: t => some (.bool false, t)
    | '"' :: t =>
      match pStrChars t with
      | none => none
      | some (s, r) => some (.str (String.mk s), r)
    | '[' :: t =>
      (match skipWs t with
       | ']' :: r => some (.arr [], r)
       | _ =>
         match pElems fuel t with
         | none => none
         | some (es, r) => some (.arr es, r))
    | '\x7b' :: t =>
      (match skipWs t with
       | '\x7d' :: r => some (.obj [], r)
       | _ =>
         match pFields fuel t with
         | none => none
         | some (fs, r) => some (.obj fs, r))
    | rest =>
      match pNum rest with
      | none => none
      | some (q, r) => some (.num q, r)

/-- Comma-separated JSON array elements up to the closing bracket. -/
def pElems : Nat → List Char → Option (List Json × List Char)
  | 0, _ => none
  | fuel + 1, cs =>
    match pVal fuel cs with
    | none => none
    | some (v, r) =>
      match skipWs r with
      | ',' :: r2 =>
        (match pElems fuel r2 with
         | none => none
         | some (vs, r3) => some (v :: vs, r3))
      | ']' :: r2 => some ([v], r2)
      | _ => none

/-- Comma-separated JSON object members up to the closing brace. -/
def pFields : Nat → List Char → Option (List (String × Json) × List Char)
  | 0, _ => none
  | fuel + 1, cs =>
    match skipWs cs with
    | '"' :: t =>
      (match pStrChars t with
       | none => none
       | some (k, r) =>
         match skipWs r with
         | ':' :: r2 =>
           (match pVal fuel r2 with
            | none => none
            | some (v, r3) =>
              match skipWs r3 with
              | ',' :: r4 =>
                (match pFields fuel r4 with
                 | none => none
                 | some (fs, r5) => some ((String.mk k, v) :: fs, r5))
              | '\x7d' :: r4 => some ([(String.mk k, v)], r4)
              | _ => none)
         | _ => none)
    | _ => none

end

/-- Parse a complete JSON document; trailing non-whitespace is an error,
as in a single `json.Unmarshal`/`Decode` call. -/
def parseJson (s : String) : Option Json :=
  match pVal (2 * s.length + 2) s.toList with
  | none => none
  | some (v, rest) => if (skipWs rest).isEmpty then some v else none

/-- Object field lookup used by struct decoding.  Go matches field tags
exactly before its case-insensitive fallback; the verified payloads use
exact tags only, and contain no duplicate keys. -/
def jField (fs : List (String × Json)) (name : String) : Option Json :=
  List.lookup name fs

/-- Decode a JSON value into a Go `float64`: a number succeeds, `null` is
a no-op (leaving the zero value), anything else is an unmarshal error. -/
def asQ : Json → Option ℚ
  | .num q => some q
  | .null => some 0
  | _ => none

/-- Decode a JSON value into a Go `bool`. -/
def asB : Json → Option Bool
  | .bool b => some b
  | .null => some false
  | _ => none

/-- Decode a JSON value into a Go `string`. -/
def asS : Json → Option String
  | .str s => some s
  | .null => some ""
  | _ => none

/-- Decode a JSON value into a Go `int` (integral numbers only; Go rejects
a fractional number for an integer field). -/
def asZ : Json → Option ℤ
  | .num q => if q.den = 1 then some q.num else none
  | .null => some 0
  | _ => none

/-- Decode a JSON value into a Go `[]string`. -/
def asStrList : Json → Option (List String)
  | .arr xs => xs.mapM asS
  | .null => some []
  | _ => none

/-- Decode a JSON value into a Go `[]int`. -/
def asIntList : Json → Option (List ℤ)
  | .arr xs => xs.mapM asZ
  | .null => some []
  | _ => none

/-- Decode a JSON value into a Go `map[string]float64`. -/
def asQMap : Json → Option (List (String × ℚ))
  | .obj fs => fs.mapM (fun kv => (asQ kv.2).map (fun q => (kv.1, q)))
  | .null => some []
  | _ => none

/-- Decode a JSON value into a Go `map[string]int`. -/
def asZMap : Json → Option (List (String × ℤ))
  | .obj fs => fs.mapM (fun kv => (asZ kv.2).map (fun z => (kv.1, z)))
  | .null => some []
  | _ => none

/-- Decode a JSON value into a Go `[]map[string]float64`. -/
def asQMapList : Json → Option (List (List (String × ℚ)))
  | .arr xs => xs.mapM asQMap
  | .null => some []
  | _ => none

/-- Decode a JSON value into a Go `[]map[string]int`. -/
def asZMapList : Json → Option (List (List (String × ℤ)))
  | .arr xs => xs.mapM asZMap
  | .null => some []
  | _ => none

/-- Decode a named struct field: a missing field keeps the Go zero value
supplied as `dflt`; a present field must decode with `f`. -/
def dField {α : Type} (fs : List (String × Json)) (name : String) (dflt : α)
    (f : Json → Option α) : Option α :=
  match jField fs name with
  | none => some dflt
  | some j => f j

/-- Unmarshal the `/control/stats` body into `AdGuardStats` (struct of
`main.go`): requires a JSON object (or `null`, which leaves the zero
struct); unknown fields are ignored; a type mismatch is an error. -/
def decodeStats : Json → Option AdGuardStats
  | .null => some ⟨0, 0, 0, 0, [], [], [], [], []⟩
  | .obj fs => do
    let a ← dField fs "num_dns_queries" 0 asQ
    let b ← dField fs "num_blocked_filtering" 0 asQ
    let c ← dField fs "num_replaced_parental" 0 asQ
    let d ← dField fs "avg_processing_time" 0 asQ
    let tq ← dField fs "top_queried_domains" [] asQMapList
    let tb ← dField fs "top_blocked_domains" [] asQMapList
    let tc ← dField fs "top_clients" [] asQMapList
    let tu ← dField fs "top_upstreams_responses" [] asQMapList
    let tt ← dField fs "top_upstreams_avg_time" [] asQMapList
    some ⟨a, b, c, d, tq, tb, tc, tu, tt⟩
  | _ => none

/-- Unmarshal the `/control/status` body into `AdGuardStatus` (struct of
`main.go`). -/
def decodeStatus : Json → Option AdGuardStatus
  | .null => some ⟨"", "", [], 0, 0, 0, false, false, false⟩
  | .obj fs => do
    let v ← dField fs "version" "" asS
    let lang ← dField fs "language" "" asS
    let da ← dField fs "dns_addresses" [] asStrList
    let dp ← dField fs "dns_port" 0 asZ
    let hp ← dField fs "http_port" 0 asZ
    let pdd ← dField fs "protection_disabled_duration" 0 asZ
    let pe ← dField fs "protection_enabled" false asB
    let dh ← dField fs "dhcp_available" false asB
    let run ← dField fs "running" false asB
    some ⟨v, lang, da, dp, hp, pdd, pe, dh, run⟩
  | _ => none

/-- Decode the nested `question` object of one query-log entry. -/
def decodeQuestion : Json → Option (String × String)
  | .null => some ("", "")
  | .obj fs => do
    let t ← dField fs "type" "" asS
    let n ← dField fs "name" "" asS
    some (t, n)
  | _ => none

/-- Check the `answer` field against its Go type `[]interface` (any array
or `null` decodes; each element decodes into `interface` unconditionally;
the decoded value is not used by the exporter). -/
def checkAnswer : Json → Option Unit
  | .arr _ => some ()
  | .null => some ()
  | _ => none

/-- Decode one element of the query-log `data` array. -/
def decodeQLogEntry : Json → Option QLogEntry
  | .null => some ⟨"", "", "", "", "", ""⟩
  | .obj fs => do
    let q ← dField fs "question" ("", "") decodeQuestion
    let _ ← dField fs "answer" () checkAnswer
    let reason ← dField fs "reason" "" asS
    let client ← dField fs "client" "" asS
    let elapsed ← dField fs "elapsedMs" "" asS
    let upstream ← dField fs "upstream" "" asS
    some ⟨q.1, q.2, reason, client, elapsed, upstream⟩
  | _ => none

/-- Unmarshal the `/control/querylog` body into `AdGuardQueryLog` (struct
of `main.go`). -/
def decodeQueryLog : Json → Option AdGuardQueryLog
  | .null => some ⟨[]⟩
  | .obj fs => do
    let d ← dField fs "data" [] (fun j =>
      match j with
      | .arr xs => xs.mapM decodeQLogEntry
      | .null => some []
      | _ => none)
    some ⟨d⟩
  | _ => none

/-- Outcome of one HTTP request in `main.go`: a transport error from
`client.Do`, a body read error from `io.ReadAll`, or a response carrying a
status code and a body. -/
inductive HTTPResult where
  | netErr
  | readErr
  | resp (statusCode : Nat) (body : String)

/-- Go `fetchStats` of `main.go`: transport and read failures propagate;
the body is passed to `json.Unmarshal`.  Note the response status code is
never consulted. -/
def fetchStats (h : HTTPResult) : Except FetchErr AdGuardStats :=
  match h with
  | .netErr => .error .network
  | .readErr => .error .readBody
  | .resp _ body =>
    match (parseJson body).bind decodeStats with
    | none => .error .decode
    | some s => .ok s

/-- Go `fetchStatus` of `main.go` (same shape as `fetchStats`). -/
def fetchStatus (h : HTTPResult) : Except FetchErr AdGuardStatus :=
  match h with
  | .netErr => .error .network
  | .readErr => .error .readBody
  | .resp _ body =>
    match (parseJson body).bind decodeStatus with
    | none => .error .decode
    | some s => .ok s

/-- Go `fetchQueryLog` of `main.go` (same shape as `fetchStats`). -/
def fetchQueryLog (h : HTTPResult) : Except FetchErr AdGuardQueryLog :=
  match h with
  | .netErr => .error .network
  | .readErr => .error .readBody
  | .resp _ body =>
    match (parseJson body).bind decodeQueryLog with
    | none => .error .decode
    | some s => .ok s

/-- One full collector cycle of `main.go` from the three HTTP outcomes. -/
def runCycle (hStats hStatus hQlog : HTTPResult) (r : Registry) : Registry :=
  updateMetrics ⟨fetchStats hStats, fetchStatus hStatus, fetchQueryLog hQlog⟩ r

namespace V0

/-- One DHCP lease of the older revision's nested `AdGuardStatus`. -/
structure DHCPLease where
  ip : String
  mac : String
  host : String
  expires : String
deriving DecidableEq

/-- Nested `dns` block of the older revision's `AdGuardStatus`. -/
structure DNSInfo where
  enabled : Bool
  upstreams : List String
  processingTime : ℚ
deriving DecidableEq

/-- Nested `dhcp` block of the older revision's `AdGuardStatus`. -/
structure DHCPInfo where
  enabled : Bool
  leases : List DHCPLease
deriving DecidableEq

/-- Go struct `AdGuardStatus` of the older revision (nested shape). -/
structure AdGuardStatus where
  running : Bool
  protectionEnabled : Bool
  dns : DNSInfo
  dhcp : DHCPInfo
deriving DecidableEq

/-- Go struct `AdGuardStats` of the older revision: per-interval arrays of
counts plus top-N breakdowns (`[]map[string]int`, and `float64` for the
response times). -/
structure AdGuardStats where
  timeUnits : String
  dnsQueries : List ℤ
  blockedFiltering : List ℤ
  replacedSafebrowsing : List ℤ
  replacedSafesearch : List ℤ
  topQueried : List (List (String × ℤ))
  topBlocked : List (List (String × ℤ))
  topClients : List (List (String × ℤ))
  topUpstreams : List (List (String × ℤ))
  topUpstreamsResponseTimes : List (List (String × ℚ))
deriving DecidableEq

/-- The Prometheus registry of the older revision: exactly its
`MustRegister` list, including the `adguard_scrape_errors_total` counter
and the DHCP gauges. -/
structure Registry where
  scrapeErrors : ℚ
  protectionEnabled : ℚ
  adguardRunning : ℚ
  queries24h : ℚ
  blockedFiltered : ℚ
  blockedSafesearch : ℚ
  blockedSafebrowsing : ℚ
  avgProcessingTime : ℚ
  topQueriedDomains : List (String × ℚ)
  topBlockedDomains : List (String × ℚ)
  topClients : List (String × ℚ)
  topUpstreams : List (String × ℚ)
  topUpstreamsResponseTime : List (String × ℚ)
  dhcpEnabled : ℚ
  dhcpLeases : ℚ
deriving DecidableEq

/-- The freshly-registered registry of the older revision. -/
def Registry.init : Registry :=
  ⟨0, 0, 0, 0, 0, 0, 0, 0, [], [], [], [], [], 0, 0⟩

/-- Decode a single lease object. -/
def decodeLease : Json → Option DHCPLease
  | .null => some ⟨"", "", "", ""⟩
  | .obj fs => do
    let ip ← dField fs "ip" "" asS
    let mac ← dField fs "mac" "" asS
    let host ← dField fs "hostname" "" asS
    let ex ← dField fs "expires" "" asS
    some ⟨ip, mac, host, ex⟩
  | _ => none

/-- Decode the nested `dns` block. -/
def decodeDNSInfo : Json → Option DNSInfo
  | .null => some ⟨false, [], 0⟩
  | .obj fs => do
    let en ← dField fs "enabled" false asB
    let up ← dField fs "upstream_dns" [] asStrList
    let pt ← dField fs "avg_processing_time" 0 asQ
    some ⟨en, up, pt⟩
  | _ => none

/-- Decode the nested `dhcp` block. -/
def decodeDHCPInfo : Json → Option DHCPInfo
  | .null => some ⟨false, []⟩
  | .obj fs => do
    let en ← dField fs "enabled" false asB
    let ls ← dField fs "leases" [] (fun j =>
      match j with
      | .arr xs => xs.mapM decodeLease
      | .null => some []
      | _ => none)
    some ⟨en, ls⟩
  | _ => none

/-- Unmarshal the `/control/status` body into the older revision's nested
`AdGuardStatus`. -/
def decodeStatus : Json → Option AdGuardStatus
  | .null => some ⟨false, false, ⟨false, [], 0⟩, ⟨false, []⟩⟩
  | .obj fs => do
    let run ← dField fs "running" false asB
    let pe ← dField fs "protection_enabled" false asB
    let dns ← dField fs "dns" ⟨false, [], 0⟩ decodeDNSInfo
    let dhcp ← dField fs "dhcp" ⟨false, []⟩ decodeDHCPInfo
    some ⟨run, pe, dns, dhcp⟩
  | _ => none

/-- Unmarshal the `/control/stats` body into the older revision's
`AdGuardStats`. -/
def decodeStats : Json → Option AdGuardStats
  | .null => some ⟨"", [], [], [], [], [], [], [], [], []⟩
  | .obj fs => do
    let tu ← dField fs "time_units" "" asS
    let dq ← dField fs "dns_queries" [] asIntList
    let bf ← dField fs "blocked_filtering" [] asIntList
    let rsb ← dField fs "replaced_safebrowsing" [] asIntList
    let rss ← dField fs "replaced_safesearch" [] asIntList
    let tq ← dField fs "top_queried_domains" [] asZMapList
    let tb ← dField fs "top_blocked_domains" [] asZMapList
    let tc ← dField fs "top_clients" [] asZMapList
    let tup ← dField fs "top_upstreams_responses" [] asZMapList
    let tt ← dField fs "top_upstreams_avg_time" [] asQMapList
    some ⟨tu, dq, bf, rsb, rss, tq, tb, tc, tup, tt⟩
  | _ => none

/-- Fetch failure kinds of the older revision's `fetchAdGuardData`:
transport error, a response status other than 200 (it checks
`resp.StatusCode != http.StatusOK`), or a decode failure from
`json.NewDecoder(resp.Body).Decode`. -/
inductive FetchErr where
  | network
  | badStatus
  | decode
deriving DecidableEq

/-- Go `fetchAdGuardData` of the older revision, instantiated by a target
decoder: unlike `main.go`, a non-200 status is rejected before decoding.
A read failure inside `Decode` surfaces as a decode error. -/
def fetchData {α : Type} (dec : Json → Option α) (h : HTTPResult) : Except FetchErr α :=
  match h with
  | .netErr => .error .network
  | .readErr => .error .decode
  | .resp code body =>
    if code ≠ 200 then .error .badStatus
    else
      match (parseJson body).bind dec with
      | none => .error .decode
      | some a => .ok a

/-- The population loop over `[]map[string]int` payloads (values cast to
`float64` at the set site). -/
def populateZ (entries : List (List (String × ℤ))) (fam : List (String × ℚ)) :
    List (String × ℚ) :=
  entries.foldl (fun f m => m.foldl (fun f kv => setA kv.1 (kv.2 : ℚ) f) f) fam

/-- Go `updateMetrics` of the older revision, at the level of the two
fetch results.  Note the order of operations taken directly from the
source: all five top-N families are `Reset()` first, unconditionally;
a status fetch failure increments the scrape-error counter and returns
(so the stats fetch is not attempted that cycle); a stats fetch failure
likewise increments the counter and returns. -/
def updateMetrics (statusR : Except FetchErr AdGuardStatus)
    (statsR : Except FetchErr AdGuardStats) (r : Registry) : Registry :=
  let r0 := { r with
    topQueriedDomains := []
    topBlockedDomains := []
    topClients := []
    topUpstreams := []
    topUpstreamsResponseTime := [] }
  match statusR with
  | .error _ => { r0 with scrapeErrors := r0.scrapeErrors + 1 }
  | .ok status =>
    let r1 := { r0 with
      protectionEnabled := boolToFloat status.protectionEnabled
      adguardRunning := boolToFloat status.running
      avgProcessingTime := status.dns.processingTime / 1000
      dhcpEnabled := boolToFloat status.dhcp.enabled
      dhcpLeases := (status.dhcp.leases.length : ℚ) }
    match statsR with
    | .error _ => { r1 with scrapeErrors := r1.scrapeErrors + 1 }
    | .ok stats =>
      let totalQueries := stats.dnsQueries.foldl (· + ·) 0
      let totalBlocked := stats.blockedFiltering.foldl (· + ·) 0
      let totalSafeSearch := stats.replacedSafesearch.foldl (· + ·) 0
      let totalSafeBrowsing := stats.replacedSafebrowsing.foldl (· + ·) 0
      let r2 := { r1 with
        queries24h := (totalQueries : ℚ)
        blockedFiltered := (totalBlocked : ℚ)
        blockedSafesearch := (totalSafeSearch : ℚ)
        blockedSafebrowsing := (totalSafeBrowsing : ℚ) }
      { r2 with
        topQueriedDomains := populateZ stats.topQueried r2.topQueriedDomains
        topBlockedDomains := populateZ stats.topBlocked r2.topBlockedDomains
        topClients := populateZ stats.topClients r2.topClients
        topUpstreams := populateZ stats.topUpstreams r2.topUpstreams
        topUpstreamsResponseTime :=
          stats.topUpstreamsResponseTimes.foldl
            (fun f m => m.foldl (fun f kv => setA kv.1 kv.2 f) f)
            r2.topUpstreamsResponseTime }

/-- One full collector cycle of the older revision from the two HTTP
outcomes (its `updateMetrics` performs the fetches itself). -/
def runCycle (hStatus hStats : HTTPResult) (r : Registry) : Registry :=
  updateMetrics (fetchData decodeStatus hStatus) (fetchData decodeStats hStats) r

end V0

/-- Events of the collector goroutine of `main.go`:
`for sequence updateMetrics(); time.Sleep(interval) end`. -/
inductive LoopEvent where
  | poll
  | sleep
deriving DecidableEq

/-- One iteration of the collector loop of `main.go`: a full
`updateMetrics` cycle (all three sources attempted), then the sleep. -/
def loopIter (f : CycleFetches) (r : Registry) : Registry × List LoopEvent :=
  (updateMetrics f r, [LoopEvent.poll, LoopEvent.sleep])

/-- The collector goroutine of `main.go` unrolled over a list of per-cycle
fetch outcomes, returning the final registry and the event trace. -/
def collectorLoop : List CycleFetches → Registry → Registry × List LoopEvent
  | [], r => (r, [])
  | f :: fs, r =>
    let p := loopIter f r
    let q := collectorLoop fs p.1
    (q.1, p.2 ++ q.2)

/-- Model of Go `strconv.Atoi`: optional sign then decimal digits, whole
string (64-bit overflow is outside the model's scope). -/
def goAtoi (s : String) : Option ℤ :=
  let sgn := match s.toList with
    | '-' :: t => (true, t)
    | '+' :: t => (false, t)
    | t => (false, t)
  let dpr := takeDigits sgn.2
  if dpr.1.isEmpty ∨ ¬ dpr.2.isEmpty then none
  else some (if sgn.1 then -(digitsToNat dpr.1 : ℤ) else (digitsToNat dpr.1 : ℤ))

/-- The interval resolution of `main` in `main.go`:
`interval, err := strconv.Atoi(scrapeIntervalStr); if err != nil || interval < 1 { interval = 15 }`.
The function is total: no branch terminates the process. -/
def resolveScrapeInterval (s : String) : ℤ :=
  match goAtoi s with
  | none => 15
  | some n => if n < 1 then 15 else n

/-- Label set of a metric family. -/
def keysOf (l : List (String × ℚ)) : List String := l.map Prod.fst

/-- The reconciled state of one top-N gauge family after a successful
stats fetch: the family is exactly the reset-then-repopulate result of
the latest payload, its label set has one series per label, and a label
is present if and only if it occurs in the latest payload (in particular,
no label surviving from an earlier poll). -/
def famMatches (fam : List (String × ℚ)) (payload : List (List (String × ℚ))) : Prop :=
  fam = populate payload [] ∧ (keysOf fam).Nodup ∧
    ∀ x : String, x ∈ keysOf fam ↔ ∃ m ∈ payload, x ∈ keysOf m

/-- The series derived from the aggregate-statistics source in `main.go`. -/
def statsSeries (r : Registry) :=
  (r.dnsQueries, r.blockedFiltering, r.replacedParental, r.avgProcessingTime,
   r.topQueriedDomains, r.topBlockedDomains, r.topClients, r.topUpstreams,
   r.topUpstreamTime)

/-- The series derived from the service-status source in `main.go`. -/
def statusSeries (r : Registry) :=
  (r.statusProtectionEnabled, r.statusRunning, r.statusDHCPAvailable,
   r.statusDisabledDuration, r.versionInfo)

/-- The series derived from the query-log source in `main.go`. -/
def qlogSeries (r : Registry) :=
  (r.queryCountByReason, r.queryCountByType, r.queryHistogramByClient,
   r.queryCountByUpstream, r.queryCountByDomain, r.queryCountClientReason)

/-- The action of one query-log entry on the query-log series alone. -/
def qstepT (q : QLogEntry) (t : List (String × ℚ) × List (String × ℚ) ×
    List (String × List ℚ) × List (String × ℚ) × List (String × ℚ) ×
    List ((String × String) × ℚ)) :
    List (String × ℚ) × List (String × ℚ) × List (String × List ℚ) ×
    List (String × ℚ) × List (String × ℚ) × List ((String × String) × ℚ) :=
  (incA q.reason t.1, incA q.questionType t.2.1,
   (match parseGoFloat q.elapsed with
    | some v => obsA q.client v t.2.2.1
    | none => t.2.2.1),
   incA q.upstream t.2.2.2.1, incA q.questionName t.2.2.2.2.1,
   incA (q.client, q.reason) t.2.2.2.2.2)

/-- Pointwise ordering of all counter-type series of the `main.go`
registry (the five `CounterVec` families; a missing series counts as 0). -/
def countersLe (r r2 : Registry) : Prop :=
  (∀ k : String, getA k r.queryCountByReason ≤ getA k r2.queryCountByReason) ∧
  (∀ k : String, getA k r.queryCountByType ≤ getA k r2.queryCountByType) ∧
  (∀ k : String, getA k r.queryCountByUpstream ≤ getA k r2.queryCountByUpstream) ∧
  (∀ k : String, getA k r.queryCountByDomain ≤ getA k r2.queryCountByDomain) ∧
  (∀ k : String × String, getA k r.queryCountClientReason ≤ getA k r2.queryCountClientReason)

/-- The status payload of the spec's end-to-end scenario, verbatim. -/
def scenarioStatusBody : String :=
  "\x7b\"running\": true, \"protection_enabled\": true, \"dhcp\": \x7b\"enabled\": false, \"leases\": []\x7d\x7d"

/-- The stats payload of the spec's end-to-end scenario, verbatim
(`dns_queries` is a plain number). -/
def scenarioStatsBody : String :=
  "\x7b\"dns_queries\": 100, \"top_clients\": [\x7b\"10.0.0.5\": 42\x7d]\x7d"

/-- The scenario stats payload with `dns_queries` as the per-interval
array the decoded struct requires. -/
def scenarioStatsBodyArr : String :=
  "\x7b\"dns_queries\": [100], \"top_clients\": [\x7b\"10.0.0.5\": 42\x7d]\x7d"


@[simp] theorem keysOf_nil : keysOf [] = [] := rfl

@[simp] theorem keysOf_cons (p : String × ℚ) (t : List (String × ℚ)) :
    keysOf (p :: t) = p.1 :: keysOf t := rfl

theorem mem_keysOf_setA (x k : String) (v : ℚ) (l : List (String × ℚ)) :
    x ∈ keysOf (setA k v l) ↔ x = k ∨ x ∈ keysOf l := by
  induction l with
  | nil => simp [setA]
  | cons p t ih =>
    obtain ⟨a, b⟩ := p
    by_cases h : a = k
    · subst h
      simp [setA]
    · simp only [setA, if_neg h, keysOf_cons, List.mem_cons]
      rw [ih]
      tauto

theorem nodup_keysOf_setA (k : String) (v : ℚ) (l : List (String × ℚ))
    (h : (keysOf l).Nodup) : (keysOf (setA k v l)).Nodup := by
  induction l with
  | nil => simp [setA]
  | cons p t ih =>
    obtain ⟨a, b⟩ := p
    rw [keysOf_cons, List.nodup_cons] at h
    by_cases hak : a = k
    · subst hak
      simpa [setA, List.nodup_cons] using h
    · have hkeys : keysOf (setA k v ((a, b) :: t)) = a :: keysOf (setA k v t) := by
        simp [setA, hak]
      rw [hkeys, List.nodup_cons]
      refine ⟨?_, ih h.2⟩
      rw [mem_keysOf_setA]
      push_neg
      exact ⟨hak, h.1⟩

theorem mem_keysOf_inner (m : List (String × ℚ)) (acc : List (String × ℚ)) (x : String) :
    x ∈ keysOf (m.foldl (fun f kv => setA kv.1 kv.2 f) acc) ↔
      x ∈ keysOf m ∨ x ∈ keysOf acc := by
  induction m generalizing acc with
  | nil => simp
  | cons kv t ih =>
    rw [List.foldl_cons, ih, mem_keysOf_setA]
    simp only [keysOf_cons, List.mem_cons]
    tauto

theorem nodup_keysOf_inner (m : List (String × ℚ)) (acc : List (String × ℚ))
    (h : (keysOf acc).Nodup) :
    (keysOf (m.foldl (fun f kv => setA kv.1 kv.2 f) acc)).Nodup := by
  induction m generalizing acc with
  | nil => exact h
  | cons kv t ih => exact ih _ (nodup_keysOf_setA _ _ _ h)

theorem mem_keysOf_populate (entries : List (List (String × ℚ)))
    (acc : List (String × ℚ)) (x : String) :
    x ∈ keysOf (populate entries acc) ↔
      (∃ m ∈ entries, x ∈ keysOf m) ∨ x ∈ keysOf acc := by
  induction entries generalizing acc with
  | nil => simp [populate]
  | cons m t ih =>
    show x ∈ keysOf (populate t (m.foldl (fun f kv => setA kv.1 kv.2 f) acc)) ↔ _
    rw [ih, mem_keysOf_inner]
    simp only [List.mem_cons]
    constructor
    · rintro (⟨m2, hm2, hx⟩ | hx | hx)
      · exact Or.inl ⟨m2, Or.inr hm2, hx⟩
      · exact Or.inl ⟨m, Or.inl rfl, hx⟩
      · exact Or.inr hx
    · rintro (⟨m2, hm2 | hm2, hx⟩ | hx)
      · subst hm2
        exact Or.inr (Or.inl hx)
      · exact Or.inl ⟨m2, hm2, hx⟩
      · exact Or.inr (Or.inr hx)

theorem nodup_keysOf_populate (entries : List (List (String × ℚ)))
    (acc : List (String × ℚ)) (h : (keysOf acc).Nodup) :
    (keysOf (populate entries acc)).Nodup := by
  induction entries generalizing acc with
  | nil => exact h
  | cons m t ih => exact ih _ (nodup_keysOf_inner _ _ h)

theorem famMatches_populate (payload : List (List (String × ℚ))) :
    famMatches (populate payload []) payload := by
  refine ⟨rfl, nodup_keysOf_populate _ _ (by simp), fun x => ?_⟩
  rw [mem_keysOf_populate]
  simp

theorem qlogStep_eq (r : Registry) (q : QLogEntry) :
    qlogStep r q = { r with
      queryCountByReason := incA q.reason r.queryCountByReason
      queryCountByType := incA q.questionType r.queryCountByType
      queryHistogramByClient :=
        match parseGoFloat q.elapsed with
        | some v => obsA q.client v r.queryHistogramByClient
        | none => r.queryHistogramByClient
      queryCountByUpstream := incA q.upstream r.queryCountByUpstream
      queryCountByDomain := incA q.questionName r.queryCountByDomain
      queryCountClientReason := incA (q.client, q.reason) r.queryCountClientReason } := by
  cases h : parseGoFloat q.elapsed <;> simp [qlogStep, h]

theorem foldl_qlogStep_shape (l : List QLogEntry) (r : Registry) :
    ∃ c1 c2 c3 c4 c5 c6, l.foldl qlogStep r = { r with
      queryCountByReason := c1
      queryCountByType := c2
      queryHistogramByClient := c3
      queryCountByUpstream := c4
      queryCountByDomain := c5
      queryCountClientReason := c6 } := by
  induction l generalizing r with
  | nil =>
    exact ⟨r.queryCountByReason, r.queryCountByType, r.queryHistogramByClient,
      r.queryCountByUpstream, r.queryCountByDomain, r.queryCountClientReason, rfl⟩
  | cons q t ih =>
    rw [List.foldl_cons]
    obtain ⟨c1, c2, c3, c4, c5, c6, h⟩ := ih (qlogStep r q)
    rw [h, qlogStep_eq]
    exact ⟨c1, c2, c3, c4, c5, c6, rfl⟩

theorem statsSeries_foldl (l : List QLogEntry) (r : Registry) :
    statsSeries (l.foldl qlogStep r) = statsSeries r := by
  obtain ⟨c1, c2, c3, c4, c5, c6, h⟩ := foldl_qlogStep_shape l r
  rw [h]
  rfl

theorem statusSeries_foldl (l : List QLogEntry) (r : Registry) :
    statusSeries (l.foldl qlogStep r) = statusSeries r := by
  obtain ⟨c1, c2, c3, c4, c5, c6, h⟩ := foldl_qlogStep_shape l r
  rw [h]
  rfl

theorem statsSeries_applyStatus (st : AdGuardStatus) (r : Registry) :
    statsSeries (applyStatus st r) = statsSeries r := rfl

theorem statusSeries_applyStatus_const (st : AdGuardStatus) (r : Registry) :
    statusSeries (applyStatus st r) =
      (boolToFloat st.protectionEnabled, boolToFloat st.running,
       boolToFloat st.dhcpAvailable, (st.protectionDisabledDuration : ℚ),
       setA st.version 1 []) := rfl

theorem statusSeries_applyStats (s : AdGuardStats) (r : Registry) :
    statusSeries (applyStats s r) = statusSeries r := rfl

theorem qlogSeries_applyStats (s : AdGuardStats) (r : Registry) :
    qlogSeries (applyStats s r) = qlogSeries r := rfl

theorem qlogSeries_applyStatus (st : AdGuardStatus) (r : Registry) :
    qlogSeries (applyStatus st r) = qlogSeries r := rfl

theorem qlogSeries_qlogStep (r : Registry) (q : QLogEntry) :
    qlogSeries (qlogStep r q) = qstepT q (qlogSeries r) := by
  rw [qlogStep_eq]
  cases h : parseGoFloat q.elapsed <;> simp [qlogSeries, qstepT, h]

theorem qlogSeries_foldl (l : List QLogEntry) (r : Registry) :
    qlogSeries (l.foldl qlogStep r) =
      l.foldl (fun t q => qstepT q t) (qlogSeries r) := by
  induction l generalizing r with
  | nil => rfl
  | cons q t ih => rw [List.foldl_cons, List.foldl_cons, ih, qlogSeries_qlogStep]

theorem statsSeries_updateMetrics (f : CycleFetches) (r : Registry) :
    statsSeries (updateMetrics f r) =
      match f.stats with
      | .ok s => statsSeries (applyStats s r)
      | .error _ => statsSeries r := by
  obtain ⟨st, su, ql⟩ := f
  cases st <;> cases su <;> cases ql <;>
    simp [updateMetrics, updateQueryLogMetrics, statsSeries_foldl, statsSeries_applyStatus]

theorem statusSeries_updateMetrics (f : CycleFetches) (r : Registry) :
    statusSeries (updateMetrics f r) =
      match f.status with
      | .ok st => statusSeries (applyStatus st r)
      | .error _ => statusSeries r := by
  obtain ⟨st, su, ql⟩ := f
  cases st <;> cases su <;> cases ql <;>
    simp only [updateMetrics, updateQueryLogMetrics, statusSeries_foldl,
      statusSeries_applyStats, statusSeries_applyStatus_const]

theorem qlogSeries_updateMetrics (f : CycleFetches) (r : Registry) :
    qlogSeries (updateMetrics f r) =
      match f.queryLog with
      | .ok d => d.data.foldl (fun t q => qstepT q t) (qlogSeries r)
      | .error _ => qlogSeries r := by
  obtain ⟨st, su, ql⟩ := f
  cases st <;> cases su <;> cases ql <;>
    simp [updateMetrics, updateQueryLogMetrics, qlogSeries_foldl, qlogSeries_applyStats,
      qlogSeries_applyStatus]

theorem getA_incA {α : Type} [DecidableEq α] (k k2 : α) (l : List (α × ℚ)) :
    getA k (incA k2 l) = if k = k2 then getA k l + 1 else getA k l := by
  induction l with
  | nil =>
    by_cases h : k = k2
    · subst h
      simp [incA, getA]
    · have h2 : ¬ k2 = k := fun hh => h hh.symm
      simp [incA, getA, h, h2]
  | cons p t ih =>
    obtain ⟨a, b⟩ := p
    by_cases h1 : a = k2
    · subst h1
      by_cases h2 : a = k
      · subst h2
        simp [incA, getA]
      · have h3 : ¬ k = a := fun hh => h2 hh.symm
        simp [incA, getA, h2, h3]
    · by_cases h2 : a = k
      · subst h2
        have h3 : ¬ a = k2 := h1
        simp [incA, getA, h1, h3]
      · simp [incA, getA, h1, h2, ih]

theorem getA_le_incA {α : Type} [DecidableEq α] (k k2 : α) (l : List (α × ℚ)) :
    getA k l ≤ getA k (incA k2 l) := by
  rw [getA_incA]
  split_ifs
  · linarith
  · exact le_refl _

theorem countersLe_refl (r : Registry) : countersLe r r :=
  ⟨fun _ => le_refl _, fun _ => le_refl _, fun _ => le_refl _,
   fun _ => le_refl _, fun _ => le_refl _⟩

theorem countersLe_trans {r1 r2 r3 : Registry}
    (h1 : countersLe r1 r2) (h2 : countersLe r2 r3) : countersLe r1 r3 :=
  ⟨fun k => le_trans (h1.1 k) (h2.1 k),
   fun k => le_trans (h1.2.1 k) (h2.2.1 k),
   fun k => le_trans (h1.2.2.1 k) (h2.2.2.1 k),
   fun k => le_trans (h1.2.2.2.1 k) (h2.2.2.2.1 k),
   fun k => le_trans (h1.2.2.2.2 k) (h2.2.2.2.2 k)⟩

theorem countersLe_qlogStep (r : Registry) (q : QLogEntry) :
    countersLe r (qlogStep r q) := by
  rw [qlogStep_eq]
  exact ⟨fun k => getA_le_incA _ _ _, fun k => getA_le_incA _ _ _,
    fun k => getA_le_incA _ _ _, fun k => getA_le_incA _ _ _,
    fun k => getA_le_incA _ _ _⟩

theorem countersLe_foldl (l : List QLogEntry) (r : Registry) :
    countersLe r (l.foldl qlogStep r) := by
  induction l generalizing r with
  | nil => exact countersLe_refl r
  | cons q t ih =>
    rw [List.foldl_cons]
    exact countersLe_trans (countersLe_qlogStep r q) (ih (qlogStep r q))

theorem countersLe_applyStats (s : AdGuardStats) (r : Registry) :
    countersLe r (applyStats s r) := countersLe_refl r

theorem countersLe_applyStatus (st : AdGuardStatus) (r : Registry) :
    countersLe r (applyStatus st r) := countersLe_refl r

theorem countersLe_updateMetrics (f : CycleFetches) (r : Registry) :
    countersLe r (updateMetrics f r) := by
  obtain ⟨st, su, ql⟩ := f
  cases st <;> cases su <;> cases ql <;>
    simp only [updateMetrics, updateQueryLogMetrics] <;>
    first
    | exact countersLe_refl _
    | exact countersLe_foldl _ _

/-- C1: for every successful fetch of the aggregate-statistics payload,
the reconciliation pass leaves each of the five top-N label-based gauge
families (top queried domains, top blocked domains, top clients, top
upstreams, top upstream response time) equal to the reset-then-repopulate
of the latest payload: one series per payload label, and no series for a
label absent from the latest payload (regardless of the prior registry
contents `r`). -/
theorem stats_success_top_families_exact (s : AdGuardStats) (f : CycleFetches)
    (r : Registry) (h : f.stats = Except.ok s) :
    famMatches (updateMetrics f r).topQueriedDomains s.topQueriedDomains ∧
    famMatches (updateMetrics f r).topBlockedDomains s.topBlockedDomains ∧
    famMatches (updateMetrics f r).topClients s.topClients ∧
    famMatches (updateMetrics f r).topUpstreams s.topUpstream ∧
    famMatches (updateMetrics f r).topUpstreamTime s.topUpstreamTime := by
  have hs := statsSeries_updateMetrics f r
  rw [h] at hs
  simp only [statsSeries, applyStats, Prod.mk.injEq] at hs
  obtain ⟨-, -, -, -, h5, h6, h7, h8, h9⟩ := hs
  exact ⟨by rw [h5]; exact famMatches_populate _,
    by rw [h6]; exact famMatches_populate _,
    by rw [h7]; exact famMatches_populate _,
    by rw [h8]; exact famMatches_populate _,
    by rw [h9]; exact famMatches_populate _⟩

/-- Witness for C1: the spec's own example — polling top-domains
`[a:5, b:3]` and then `[b:7, c:2]` leaves the family exactly
`[b:7, c:2]`, with the stale label `a` gone. -/
theorem stats_success_top_families_exact_witness :
    famMatches
      (updateMetrics
        ⟨Except.ok ⟨0, 0, 0, 0, [[("b", 7)], [("c", 2)]], [], [], [], []⟩,
         Except.error FetchErr.network, Except.error FetchErr.network⟩
        (updateMetrics
          ⟨Except.ok ⟨0, 0, 0, 0, [[("a", 5)], [("b", 3)]], [], [], [], []⟩,
           Except.error FetchErr.network, Except.error FetchErr.network⟩
          Registry.init)).topQueriedDomains
      [[("b", 7)], [("c", 2)]] ∧
    (updateMetrics
        ⟨Except.ok ⟨0, 0, 0, 0, [[("b", 7)], [("c", 2)]], [], [], [], []⟩,
         Except.error FetchErr.network, Except.error FetchErr.network⟩
        (updateMetrics
          ⟨Except.ok ⟨0, 0, 0, 0, [[("a", 5)], [("b", 3)]], [], [], [], []⟩,
           Except.error FetchErr.network, Except.error FetchErr.network⟩
          Registry.init)).topQueriedDomains = [("b", 7), ("c", 2)] :=
  ⟨(stats_success_top_families_exact _ _ _ rfl).1, rfl⟩

/-- C2: each of the three sources is reconciled independently in
`main.go`'s `updateMetrics`: a failed fetch of a source leaves that
source's series exactly as they were (conjuncts 1 to 3), and each
source's resulting series depend only on that source's own fetch result,
so a failure of one source cannot affect the reconciliation of the other
two in the same cycle (conjuncts 4 to 6). -/
theorem cycle_source_isolation (f f2 : CycleFetches) (r : Registry) :
    (∀ e, f.stats = Except.error e →
      statsSeries (updateMetrics f r) = statsSeries r) ∧
    (∀ e, f.status = Except.error e →
      statusSeries (updateMetrics f r) = statusSeries r) ∧
    (∀ e, f.queryLog = Except.error e →
      qlogSeries (updateMetrics f r) = qlogSeries r) ∧
    (f.stats = f2.stats →
      statsSeries (updateMetrics f r) = statsSeries (updateMetrics f2 r)) ∧
    (f.status = f2.status →
      statusSeries (updateMetrics f r) = statusSeries (updateMetrics f2 r)) ∧
    (f.queryLog = f2.queryLog →
      qlogSeries (updateMetrics f r) = qlogSeries (updateMetrics f2 r)) := by
  refine ⟨?_, ?_, ?_, ?_, ?_, ?_⟩
  · intro e he
    rw [statsSeries_updateMetrics, he]
  · intro e he
    rw [statusSeries_updateMetrics, he]
  · intro e he
    rw [qlogSeries_updateMetrics, he]
  · intro he
    rw [statsSeries_updateMetrics, statsSeries_updateMetrics, he]
  · intro he
    rw [statusSeries_updateMetrics, statusSeries_updateMetrics, he]
  · intro he
    rw [qlogSeries_updateMetrics, qlogSeries_updateMetrics, he]

/-- Witness for C2 at a concrete cycle: with the stats fetch failing, the
stats-derived series of the fresh registry are untouched, and the status
series come out the same as in a cycle where the other two sources
succeed. -/
theorem cycle_source_isolation_witness :
    statsSeries (updateMetrics
      ⟨Except.error FetchErr.network,
       Except.ok ⟨"v0.107", "en", [], 53, 80, 0, true, false, true⟩,
       Except.error FetchErr.decode⟩ Registry.init) = statsSeries Registry.init ∧
    statusSeries (updateMetrics
      ⟨Except.error FetchErr.network,
       Except.ok ⟨"v0.107", "en", [], 53, 80, 0, true, false, true⟩,
       Except.error FetchErr.decode⟩ Registry.init) =
    statusSeries (updateMetrics
      ⟨Except.ok ⟨1, 2, 3, 4, [], [], [], [], []⟩,
       Except.ok ⟨"v0.107", "en", [], 53, 80, 0, true, false, true⟩,
       Except.ok ⟨[]⟩⟩ Registry.init) :=
  ⟨(cycle_source_isolation
      ⟨Except.error FetchErr.network,
       Except.ok ⟨"v0.107", "en", [], 53, 80, 0, true, false, true⟩,
       Except.error FetchErr.decode⟩
      ⟨Except.ok ⟨1, 2, 3, 4, [], [], [], [], []⟩,
       Except.ok ⟨"v0.107", "en", [], 53, 80, 0, true, false, true⟩,
       Except.ok ⟨[]⟩⟩ Registry.init).1 FetchErr.network rfl,
   (cycle_source_isolation
      ⟨Except.error FetchErr.network,
       Except.ok ⟨"v0.107", "en", [], 53, 80, 0, true, false, true⟩,
       Except.error FetchErr.decode⟩
      ⟨Except.ok ⟨1, 2, 3, 4, [], [], [], [], []⟩,
       Except.ok ⟨"v0.107", "en", [], 53, 80, 0, true, false, true⟩,
       Except.ok ⟨[]⟩⟩ Registry.init).2.2.2.2.1 rfl⟩

/-- C7: every counter-type series of `main.go` (queries by reason, by
type, by upstream, by domain, by client and reason) is monotonically
non-decreasing: one reconciliation pass never lowers any counter series,
whatever mix of fetch successes and failures the cycle has, and after
appending one more poll to any poll sequence every counter is at least
its previous value.  (Counters are never reset: `updateMetrics` contains
no reset of a counter family.) -/
theorem counter_series_monotone (fs : List CycleFetches) (f : CycleFetches)
    (r : Registry) :
    countersLe r (updateMetrics f r) ∧
    countersLe (runPolls fs r) (runPolls (fs ++ [f]) r) := by
  refine ⟨countersLe_updateMetrics f r, ?_⟩
  have h : runPolls (fs ++ [f]) r = updateMetrics f (runPolls fs r) := by
    simp [runPolls, List.foldl_append]
  rw [h]
  exact countersLe_updateMetrics f (runPolls fs r)

/-- C9: in the collector goroutine of `main.go`
(`for sequence updateMetrics(); time.Sleep(interval) end`), the very
first event of every run is a complete poll (an `updateMetrics` cycle
over all three sources), which happens before the first sleep; the
registry already holds the result of that first cycle when the first
sleep begins. -/
theorem startup_polls_before_first_sleep (f : CycleFetches)
    (fs : List CycleFetches) (r : Registry) :
    collectorLoop (f :: fs) r =
      ((collectorLoop fs (updateMetrics f r)).1,
        LoopEvent.poll :: LoopEvent.sleep ::
          (collectorLoop fs (updateMetrics f r)).2) ∧
    (collectorLoop (f :: fs) r).2.head? = some LoopEvent.poll := by
  constructor
  · simp [collectorLoop, loopIter]
  · simp [collectorLoop, loopIter]

/-- C8: a `SCRAPE_INTERVAL` value that `strconv.Atoi` cannot parse makes
`main` of `main.go` fall back to the default 15-second interval;
`resolveScrapeInterval` is total, so startup is never aborted by a
malformed interval. -/
theorem malformed_interval_falls_back (s : String) (h : goAtoi s = none) :
    resolveScrapeInterval s = 15 := by
  simp [resolveScrapeInterval, h]

/-- Witness for C8: the README's own example value `15s` does not parse
as an integer and yields the default 15. -/
theorem malformed_interval_falls_back_witness :
    goAtoi "15s" = none ∧ resolveScrapeInterval "15s" = 15 :=
  ⟨rfl, malformed_interval_falls_back "15s" rfl⟩

/-- C10: a query-log entry whose `elapsedMs` string fails to parse still
increments all five counters (by reason, type, upstream, domain, and
client-reason pair), only the histogram observation is skipped, and the
fold continues with the remaining entries of the page. -/
theorem qlog_unparsable_elapsed_still_counts (q : QLogEntry) (r : Registry)
    (rest : List QLogEntry) (h : parseGoFloat q.elapsed = none) :
    qlogStep r q = { r with
      queryCountByReason := incA q.reason r.queryCountByReason
      queryCountByType := incA q.questionType r.queryCountByType
      queryCountByUpstream := incA q.upstream r.queryCountByUpstream
      queryCountByDomain := incA q.questionName r.queryCountByDomain
      queryCountClientReason := incA (q.client, q.reason) r.queryCountClientReason } ∧
    (qlogStep r q).queryHistogramByClient = r.queryHistogramByClient ∧
    (q :: rest).foldl qlogStep r = rest.foldl qlogStep (qlogStep r q) := by
  refine ⟨?_, ?_, rfl⟩
  · rw [qlogStep_eq]
    simp [h]
  · rw [qlogStep_eq]
    simp [h]

/-- Witness for C10 at a concrete unparsable entry. -/
theorem qlog_unparsable_elapsed_still_counts_witness :
    parseGoFloat "abc" = none ∧
    (qlogStep Registry.init
      ⟨"A", "example.com", "NotFilteredNotFound", "10.0.0.9", "abc", "1.1.1.1"⟩
      ).queryHistogramByClient = Registry.init.queryHistogramByClient :=
  ⟨rfl, (qlog_unparsable_elapsed_still_counts
    ⟨"A", "example.com", "NotFilteredNotFound", "10.0.0.9", "abc", "1.1.1.1"⟩
    Registry.init [] rfl).2.1⟩

/-- C3 counterexample: `main.go` sets the average-processing-time gauge to
the upstream value unchanged — an upstream value of 250 is exposed as 250,
not as 0.25 (its own metric help text declares the unit as ms). -/
theorem ms_conversion_counterexample :
    (updateMetrics
      ⟨Except.ok ⟨0, 0, 0, 250, [], [], [], [], []⟩,
       Except.error FetchErr.network, Except.error FetchErr.network⟩
      Registry.init).avgProcessingTime = 250 ∧
    ((250 : ℚ) ≠ 1 / 4) := by
  exact ⟨rfl, by norm_num⟩

/-- C3 amended: the current implementation (`main.go`) publishes
millisecond-valued upstream fields unchanged — the average processing
time gauge gets the raw payload value, and the per-query elapsed time is
observed in milliseconds; the divide-by-1000 millisecond-to-seconds
conversion exists only in the repository's older revision, whose average
processing time gauge gets `value / 1000` (so 250 ms is exposed there as
0.25 s). -/
theorem ms_values_published_unconverted
    (s : AdGuardStats) (r : Registry) (q : QLogEntry) (v : ℚ)
    (st : V0.AdGuardStatus) (sr : Except V0.FetchErr V0.AdGuardStats)
    (r0 : V0.Registry) (h : parseGoFloat q.elapsed = some v) :
    (applyStats s r).avgProcessingTime = s.avgProcessingTime ∧
    (qlogStep r q).queryHistogramByClient =
      obsA q.client v r.queryHistogramByClient ∧
    (V0.updateMetrics (Except.ok st) sr r0).avgProcessingTime =
      st.dns.processingTime / 1000 := by
  refine ⟨rfl, ?_, ?_⟩
  · rw [qlogStep_eq]
    simp [h]
  · cases sr <;> simp [V0.updateMetrics]

/-- Witness for C3 (amended): the elapsed string 250 parses and, in the
older revision, a 250 ms average processing time is exposed as 0.25. -/
theorem ms_values_published_unconverted_witness :
    parseGoFloat "250" = some 250 ∧
    (V0.updateMetrics
      (Except.ok ⟨false, false, ⟨false, [], 250⟩, ⟨false, []⟩⟩)
      (Except.error V0.FetchErr.decode) V0.Registry.init).avgProcessingTime
      = 1 / 4 := by
  refine ⟨rfl, ?_⟩
  have h := (ms_values_published_unconverted ⟨0, 0, 0, 0, [], [], [], [], []⟩
    Registry.init ⟨"A", "d", "R", "c", "250", "u"⟩ 250
    ⟨false, false, ⟨false, [], 250⟩, ⟨false, []⟩⟩
    (Except.error V0.FetchErr.decode) V0.Registry.init rfl).2.2
  rw [h]
  show (250 : ℚ) / 1000 = 1 / 4
  norm_num

/-- C5 counterexample: `main.go`'s `fetchStats` never consults the
response status code, so a 401 response whose body is the well-formed
JSON object of no fields decodes and is returned as a structure, not as
an error. -/
theorem fetch_ignores_status_counterexample :
    fetchStats (.resp 401 "\x7b\x7d") =
      Except.ok ⟨0, 0, 0, 0, [], [], [], [], []⟩ ∧
    ∀ (x : AdGuardStats) (e : FetchErr),
      (Except.ok x : Except FetchErr AdGuardStats) ≠ Except.error e :=
  ⟨rfl, fun _ _ h => Except.noConfusion h⟩

/-- C5 amended: `main.go`'s fetcher returns an error exactly on transport
failure, body read failure, and malformed (undecodable) body; the HTTP
status code is ignored, so a non-2xx response errors only if its body
fails to decode.  The non-200 status check exists only in the older
revision's `fetchAdGuardData`, which rejects it before decoding. -/
theorem fetch_failure_kinds (code : Nat) (body : String) :
    (fetchStats HTTPResult.netErr = Except.error FetchErr.network) ∧
    (fetchStats HTTPResult.readErr = Except.error FetchErr.readBody) ∧
    ((parseJson body).bind decodeStats = none →
      fetchStats (.resp code body) = Except.error FetchErr.decode) ∧
    (∀ s, (parseJson body).bind decodeStats = some s →
      fetchStats (.resp code body) = Except.ok s) ∧
    (code ≠ 200 →
      V0.fetchData V0.decodeStats (.resp code body) =
        Except.error V0.FetchErr.badStatus) := by
  refine ⟨rfl, rfl, ?_, ?_, ?_⟩
  · intro h
    simp [fetchStats, h]
  · intro s h
    simp [fetchStats, h]
  · intro h
    simp [V0.fetchData, h]

/-- Witness for C5 (amended): a malformed body errors in `main.go`, and a
503 is rejected by the older revision's fetcher. -/
theorem fetch_failure_kinds_witness :
    fetchStats (.resp 200 "nope") = Except.error FetchErr.decode ∧
    V0.fetchData V0.decodeStats (.resp 503 "\x7b\x7d") =
      Except.error V0.FetchErr.badStatus :=
  ⟨(fetch_failure_kinds 200 "nope").2.2.1 rfl,
   (fetch_failure_kinds 503 "\x7b\x7d").2.2.2.2 (by norm_num)⟩

/-- C6 counterexample: a cycle in which all three fetches fail leaves the
`main.go` registry exactly as it was — in particular no counter of any
kind is incremented, because the current implementation registers no
scrape-error counter at all (the `Registry` structure, taken from its
`MustRegister` call, has no such series). -/
theorem failing_cycle_increments_nothing :
    runCycle HTTPResult.netErr HTTPResult.netErr HTTPResult.netErr
      Registry.init = Registry.init ∧
    updateMetrics ⟨Except.error FetchErr.decode, Except.error FetchErr.decode,
      Except.error FetchErr.decode⟩ Registry.init = Registry.init :=
  ⟨rfl, rfl⟩

/-- C6 amended: in `main.go` a failed fetch is treated as no update this
cycle for the affected source, the reconciler returns normally (it is a
total function — never fatal, the metrics endpoint stays servable), but
no error counter is incremented because none is registered; the
scrape-error counter belongs to the older revision, where a failed status
or stats fetch increments `adguard_scrape_errors_total` by exactly 1. -/
theorem fetch_failure_skips_source_only (e : FetchErr) (f : CycleFetches)
    (r : Registry) (e2 : V0.FetchErr)
    (stR : Except V0.FetchErr V0.AdGuardStats) (r0 : V0.Registry) :
    (updateQueryLogMetrics (Except.error e) r = r) ∧
    (f.queryLog = Except.error e →
      qlogSeries (updateMetrics f r) = qlogSeries r) ∧
    ((V0.updateMetrics (Except.error e2) stR r0).scrapeErrors =
      r0.scrapeErrors + 1) ∧
    (∀ st : V0.AdGuardStatus,
      (V0.updateMetrics (Except.ok st) (Except.error e2) r0).scrapeErrors =
        r0.scrapeErrors + 1) := by
  refine ⟨rfl, ?_, ?_, ?_⟩
  · intro he
    rw [qlogSeries_updateMetrics, he]
  · simp [V0.updateMetrics]
  · intro st
    simp [V0.updateMetrics]

/-- Witness for C6 (amended) at a concrete all-failing cycle. -/
theorem fetch_failure_skips_source_only_witness :
    qlogSeries (updateMetrics ⟨Except.error FetchErr.network,
      Except.error FetchErr.network, Except.error FetchErr.network⟩
      Registry.init) = qlogSeries Registry.init :=
  (fetch_failure_skips_source_only FetchErr.network
    ⟨Except.error FetchErr.network, Except.error FetchErr.network,
     Except.error FetchErr.network⟩ Registry.init V0.FetchErr.network
    (Except.error V0.FetchErr.network) V0.Registry.init).2.1 rfl

/-- C4 counterexample: running the older revision's cycle on the spec's
literal scenario payloads, the stats body fails to decode (`dns_queries`
is a number where the struct requires an array), so the scrape-error
counter is incremented, the total-queries gauge stays 0 (the claim says
100) and the top-clients family is left empty (the claim says one series
`10.0.0.5 = 42`). -/
theorem scenario_literal_payload_fails :
    ((parseJson scenarioStatsBody).bind V0.decodeStats = none) ∧
    (V0.runCycle (.resp 200 scenarioStatusBody) (.resp 200 scenarioStatsBody)
      V0.Registry.init).queries24h = 0 ∧
    (V0.runCycle (.resp 200 scenarioStatusBody) (.resp 200 scenarioStatsBody)
      V0.Registry.init).topClients = [] ∧
    (V0.runCycle (.resp 200 scenarioStatusBody) (.resp 200 scenarioStatsBody)
      V0.Registry.init).scrapeErrors = 1 ∧
    ((0 : ℚ) ≠ 100) :=
  ⟨rfl, rfl, rfl,
   by
     have h : (V0.runCycle (.resp 200 scenarioStatusBody)
         (.resp 200 scenarioStatsBody) V0.Registry.init).scrapeErrors
         = 0 + 1 := rfl
     rw [h]
     norm_num,
   by norm_num⟩

/-- C4 amended: the same scenario with the stats payload's `dns_queries`
given as the array `[100]` (the shape the decoded struct requires) makes
one reconciliation pass of the older revision produce exactly the claimed
values: running flag 1, protection flag 1, DHCP flag 0, DHCP lease count
0, total-queries gauge 100, and a top-clients family of exactly one
series `10.0.0.5` with value 42. -/
theorem scenario_array_payload_succeeds :
    (V0.runCycle (.resp 200 scenarioStatusBody) (.resp 200 scenarioStatsBodyArr)
      V0.Registry.init).adguardRunning = 1 ∧
    (V0.runCycle (.resp 200 scenarioStatusBody) (.resp 200 scenarioStatsBodyArr)
      V0.Registry.init).protectionEnabled = 1 ∧
    (V0.runCycle (.resp 200 scenarioStatusBody) (.resp 200 scenarioStatsBodyArr)
      V0.Registry.init).dhcpEnabled = 0 ∧
    (V0.runCycle (.resp 200 scenarioStatusBody) (.resp 200 scenarioStatsBodyArr)
      V0.Registry.init).dhcpLeases = 0 ∧
    (V0.runCycle (.resp 200 scenarioStatusBody) (.resp 200 scenarioStatsBodyArr)
      V0.Registry.init).queries24h = 100 ∧
    (V0.runCycle (.resp 200 scenarioStatusBody) (.resp 200 scenarioStatsBodyArr)
      V0.Registry.init).topClients = [("10.0.0.5", 42)] :=
  ⟨rfl, rfl, rfl, rfl, rfl, rfl⟩
